import Mathlib

/-!
Shallow embedding of the wavs-eas attestation pipeline:
the two drafts of `EASGraphQLClient` in
`src/components/js-eas-sdk-demo/eas-client.ts` (namespaces `Draft1` and
`Draft2` below), and the containment evaluator `testPolygonContainment`
(`src/unnamed/part_000`).

Network effects are embedded by passing the store's responses in as data
and recording the issued calls as an explicit trace list.  The payload
decoder (`data-utils.ts`, not present in the repository snapshot) is
passed in as a function parameter, modelled from the spec's
PayloadDecoder contract: `decode(raw) -> mapping or PayloadDecodeError`.
-/

/-- Raw attestation record as returned inside a GraphQL `data` object:
fields `id`, `schemaId`, `refUID`, `decodedDataJson`. -/
structure RawAttestation where
  id : String
  schemaId : String
  refUID : String
  decodedDataJson : String
deriving Repr, DecidableEq

/-- Normalized attestation (`AttestationData` in `types.ts`):
`uid`, `schemaId`, `refUID`, `data`. -/
structure AttestationData where
  uid : String
  schemaId : String
  refUID : String
  data : String
deriving Repr, DecidableEq

/-- The `data` object of a GraphQL response body: an optional single
`attestation` and a list `attestations` (the referencing ones).  For the
location-lookup query only the `attestation` field is populated. -/
structure QueryData where
  attestation : Option RawAttestation
  attestations : List RawAttestation
deriving Repr, DecidableEq

/-- An HTTP response to a GraphQL POST: `ok` is `response.ok`
(2xx status) and `data` is the `data` field of the JSON body
(`none` when absent). -/
structure HttpResponse where
  ok : Bool
  data : Option QueryData
deriving Repr, DecidableEq

/-- Modelled from the spec: the `DecodedPayload` produced by the
PayloadDecoder collaborator (`extractDecodedDataFromRaw` in the missing
`data-utils.ts`).  Only the `locationUID` field is consumed by the
resolver; it is optional. -/
structure DecodedPayload where
  locationUID : Option String
deriving Repr, DecidableEq

/-- Error classes thrown by the client code, one constructor per distinct
`throw new Error(...)` site class. -/
inductive ClientError where
  /-- `Unsupported chainId: ...` -/
  | unsupportedChain (chainId : Int)
  /-- `GraphQL error: ...` (non-2xx HTTP status on a strict query). -/
  | graphQLError
  /-- `No data returned from GraphQL query` on a strict query. -/
  | noData
  /-- Draft 2 `extractLocationUID`: `No attestation found for attestationId: ...`. -/
  | rootAttestationNotFound
  /-- Draft 2 `extractLocationUID`: `No locationUID found for attestation ...`. -/
  | locationReferenceMissing (uid : String)
  /-- `No attestations found [referencing] attestationId: ...` (both drafts). -/
  | noReferencingAttestations (attestationId : String)
deriving Repr, DecidableEq

/-- Result of a successful `fetchAttestations` call. -/
structure FetchResult where
  attestations : List AttestationData
  locationAttestation : Option AttestationData
deriving Repr, DecidableEq

/-- A network call issued by the client, recorded as a trace element:
which query template was POSTed, to which endpoint, with which `uid`
variable. -/
inductive NetworkCall where
  /-- The combined root-plus-referencing query (`fetchInitialAttestations`). -/
  | initialQuery (endpoint : String) (uid : String)
  /-- The single location-lookup query (`fetchLocationAttestation`). -/
  | locationQuery (endpoint : String) (uid : String)
deriving Repr, DecidableEq

/-- The AttestationStore collaborator, embedded as the responses it would
give to each of the two query templates for a given `uid` variable. -/
structure Store where
  initialResponse : String → HttpResponse
  locationResponse : String → HttpResponse

/-- Source: `convertRawAttestationToData` (draft 1, eas-client.ts lines 9-16). -/
def convertRawAttestationToData (rawAttestation : RawAttestation) : AttestationData :=
  { uid := rawAttestation.id
    schemaId := rawAttestation.schemaId
    refUID := rawAttestation.refUID
    data := rawAttestation.decodedDataJson }

/-- Source: `convertGraphQLResponseToAttestationData` (draft 2, lines 225-232);
textually identical field mapping to draft 1's converter. -/
def convertGraphQLResponseToAttestationData (rawAttestation : RawAttestation) : AttestationData :=
  { uid := rawAttestation.id
    schemaId := rawAttestation.schemaId
    refUID := rawAttestation.refUID
    data := rawAttestation.decodedDataJson }

/-- Source: `EASGraphQLClient.getEndpoint` (identical in both drafts).
`chainId` is a TS `number`; embedded as `Int`. -/
def getEndpoint (chainId : Int) : Option String :=
  if chainId = 1 then some "https://mainnet.easscan.org/graphql"
  else if chainId = 10 then some "https://optimism.easscan.org/graphql"
  else if chainId = 11155111 then some "https://sepolia.easscan.org/graphql"
  else none

/-- Source: `executeGraphQLQuery` (identical in both drafts).  The `fetch`
itself is factored out: the response is a parameter.  On a non-ok response:
throw if `throwOnError`, else return `null`.  On an ok response with absent
`data`: throw if `throwOnError`, else return the absent `data`. -/
def executeGraphQLQuery (response : HttpResponse) (throwOnError : Bool) :
    Except ClientError (Option QueryData) :=
  if !response.ok then
    if throwOnError then .error .graphQLError else .ok none
  else
    match response.data with
    | none => if throwOnError then .error .noData else .ok none
    | some d => .ok (some d)

/-- Source: `fetchInitialAttestations` (identical in both drafts): the
combined query executed with `throwOnError = true`.  With `throwOnError`
set, `executeGraphQLQuery` never returns an absent `data`, so the
`.ok none` arm is unreachable; it is mapped to the same `noData` error. -/
def fetchInitialAttestations (response : HttpResponse) : Except ClientError QueryData :=
  match executeGraphQLQuery response true with
  | .error e => .error e
  | .ok none => .error .noData
  | .ok (some d) => .ok d

/-- Source: `fetchLocationAttestation` (identical in both drafts): the
location query executed with `throwOnError = false`, then
`data?.attestation || null`. -/
def fetchLocationAttestation (response : HttpResponse) :
    Except ClientError (Option RawAttestation) :=
  match executeGraphQLQuery response false with
  | .error e => .error e
  | .ok d => .ok (d.bind (fun q => q.attestation))

/-- Source: `fetchLocationData` (identical in both drafts; lines 123-136 and
344-357).  TS `if (!locationUID) return null` is falsy on both `null` and
the empty string.  Returns the result paired with the network calls issued. -/
def fetchLocationData (store : Store) (endpoint : String)
    (locationUID : Option String) :
    Except ClientError (Option AttestationData) × List NetworkCall :=
  match locationUID with
  | none => (.ok none, [])
  | some uid =>
    if uid = "" then (.ok none, [])
    else
      match fetchLocationAttestation (store.locationResponse uid) with
      | .error e => (.error e, [.locationQuery endpoint uid])
      | .ok (some locationAttestation) =>
        (.ok (some (convertRawAttestationToData locationAttestation)),
         [.locationQuery endpoint uid])
      | .ok none => (.ok none, [.locationQuery endpoint uid])

namespace Draft1

/-- Source: draft 1 `fetchMainAttestations` (lines 73-115).  The root
attestation, when present, is used only to extract `locationUID`; a decode
failure is caught and leaves `locationUID = null`.  An empty referencing
list throws `No attestations found for attestationId`. -/
def fetchMainAttestations (decode : String → Option DecodedPayload)
    (attestationId : String) (initialData : QueryData) :
    Except ClientError (List AttestationData × Option String) :=
  let locationUID : Option String :=
    match initialData.attestation with
    | none => none
    | some a =>
      match decode a.decodedDataJson with
      | none => none
      | some decodedData => decodedData.locationUID
  let allAttestations := initialData.attestations
  if allAttestations.length = 0 then
    .error (.noReferencingAttestations attestationId)
  else
    .ok (allAttestations.map convertRawAttestationToData, locationUID)

/-- Source: draft 1 `fetchAttestations` (lines 44-65): endpoint lookup,
combined fetch, main-attestation processing, then the lenient location
fetch.  Returns the outcome paired with the trace of issued calls. -/
def fetchAttestations (decode : String → Option DecodedPayload) (store : Store)
    (chainId : Int) (attestationId : String) :
    Except ClientError FetchResult × List NetworkCall :=
  match getEndpoint chainId with
  | none => (.error (.unsupportedChain chainId), [])
  | some endpoint =>
    let initCall := NetworkCall.initialQuery endpoint attestationId
    match fetchInitialAttestations (store.initialResponse attestationId) with
    | .error e => (.error e, [initCall])
    | .ok initialData =>
      match fetchMainAttestations decode attestationId initialData with
      | .error e => (.error e, [initCall])
      | .ok (attestations, locationUID) =>
        match fetchLocationData store endpoint locationUID with
        | (.error e, calls) => (.error e, initCall :: calls)
        | (.ok locationAttestation, calls) =>
          (.ok { attestations := attestations
                 locationAttestation := locationAttestation },
           initCall :: calls)

end Draft1

namespace Draft2

/-- Source: draft 2 `extractLocationUID` (lines 315-336).  Throws when the
root attestation is absent.  When `decodedDataJson` is truthy and decodes,
returns `decodedData.locationUID || null` (so a missing or empty
`locationUID` yields `null`, not an error).  When `decodedDataJson` is
falsy, or decoding throws (caught), falls through to
`No locationUID found for attestation`. -/
def extractLocationUID (decode : String → Option DecodedPayload)
    (initialData : QueryData) : Except ClientError (Option String) :=
  match initialData.attestation with
  | none => .error .rootAttestationNotFound
  | some attestation =>
    if attestation.decodedDataJson ≠ "" then
      match decode attestation.decodedDataJson with
      | some decodedData =>
        .ok (match decodedData.locationUID with
             | some u => if u = "" then none else some u
             | none => none)
      | none => .error (.locationReferenceMissing attestation.id)
    else .error (.locationReferenceMissing attestation.id)

/-- Source: draft 2 `fetchMainAttestations` (lines 289-313):
`extractLocationUID` runs first (and may throw), then an empty referencing
list throws `No attestations found referencing attestationId`. -/
def fetchMainAttestations (decode : String → Option DecodedPayload)
    (attestationId : String) (initialData : QueryData) :
    Except ClientError (List AttestationData × Option String) :=
  match extractLocationUID decode initialData with
  | .error e => .error e
  | .ok locationUID =>
    let referencingAttestations := initialData.attestations
    if referencingAttestations.length > 0 then
      .ok (referencingAttestations.map convertGraphQLResponseToAttestationData,
           locationUID)
    else
      .error (.noReferencingAttestations attestationId)

/-- Source: draft 2 `fetchAttestations` (lines 260-281); same composition
as draft 1, delegating to draft 2's `fetchMainAttestations`. -/
def fetchAttestations (decode : String → Option DecodedPayload) (store : Store)
    (chainId : Int) (attestationId : String) :
    Except ClientError FetchResult × List NetworkCall :=
  match getEndpoint chainId with
  | none => (.error (.unsupportedChain chainId), [])
  | some endpoint =>
    let initCall := NetworkCall.initialQuery endpoint attestationId
    match fetchInitialAttestations (store.initialResponse attestationId) with
    | .error e => (.error e, [initCall])
    | .ok initialData =>
      match fetchMainAttestations decode attestationId initialData with
      | .error e => (.error e, [initCall])
      | .ok (attestations, locationUID) =>
        match fetchLocationData store endpoint locationUID with
        | (.error e, calls) => (.error e, initCall :: calls)
        | (.ok locationAttestation, calls) =>
          (.ok { attestations := attestations
                 locationAttestation := locationAttestation },
           initCall :: calls)

end Draft2

/-!
Containment evaluator (`src/unnamed/part_000`).  The GeometryEngine
collaborator (turf `polygon`, `point`, `booleanContains`) is out of scope
per the spec and is passed in as an abstract structure; the geometry
decoder `extractLocationFromAttestation` (missing `data-utils.ts`) is
passed in as a function, modelled from the spec's PayloadDecoder
contract (an `Except` since it may throw `PayloadDecodeError`).
-/

/-- GeoJSON coordinate value of the untyped TS payloads: arbitrarily
nested arrays of numbers (a point's `coordinates` is one position, a
polygon's is a list of rings). -/
inductive CoordValue where
  | num (n : Int)
  | arr (xs : List CoordValue)

/-- Location data extracted from an attestation payload; the evaluator
reads only its `coordinates` field. -/
structure LocationData where
  coordinates : CoordValue

/-- Output entity of the evaluator (`ContainmentResult` in `types.ts`). -/
structure ContainmentResult where
  attestationId : String
  location : LocationData
  isContainedInPolygon : Bool

/-- The GeometryEngine collaborator: turf's `polygon` and `point`
constructors and the `booleanContains` predicate, abstract. -/
structure GeometryEngine (Poly Pt : Type) where
  polygon : CoordValue → Poly
  point : CoordValue → Pt
  booleanContains : Poly → Pt → Bool

/-- Source: `validateObservation` (part_000 lines 33-51): decode the
observation's location (propagating a decode error), build a turf point,
test containment, and emit the result record.  `index` is used only for
tracing in the source. -/
def validateObservation {Poly Pt : Type} (G : GeometryEngine Poly Pt)
    (extractLocationFromAttestation : AttestationData → Except String LocationData)
    (index : Nat) (attestation : AttestationData) (turfPolygon : Poly) :
    Except String ContainmentResult :=
  match extractLocationFromAttestation attestation with
  | .error e => .error e
  | .ok locationData =>
    let turfPoint := G.point locationData.coordinates
    let isContained := G.booleanContains turfPolygon turfPoint
    .ok { attestationId := attestation.uid
          location := locationData
          isContainedInPolygon := isContained }

/-- Source: the indexed `.map` callback loop inside `testPolygonContainment`
(part_000 lines 24-26).  A thrown decode error aborts the whole traversal
(JS exception semantics), embedded as `Except` short-circuiting. -/
def validateObservations {Poly Pt : Type} (G : GeometryEngine Poly Pt)
    (extractLocationFromAttestation : AttestationData → Except String LocationData)
    (turfPolygon : Poly) :
    Nat → List AttestationData → Except String (List ContainmentResult)
  | _, [] => .ok []
  | index, attestation :: rest =>
    match validateObservation G extractLocationFromAttestation index attestation turfPolygon with
    | .error e => .error e
    | .ok r =>
      match validateObservations G extractLocationFromAttestation turfPolygon (index + 1) rest with
      | .error e => .error e
      | .ok rs => .ok (r :: rs)

/-- Source: `testPolygonContainment` (part_000 lines 13-31): extract the
polygon from the location attestation (a decode error propagates), build
the turf polygon once, then evaluate every observation in input order. -/
def testPolygonContainment {Poly Pt : Type} (G : GeometryEngine Poly Pt)
    (extractLocationFromAttestation : AttestationData → Except String LocationData)
    (attestations : List AttestationData) (locationAttestation : AttestationData) :
    Except String (List ContainmentResult) :=
  match extractLocationFromAttestation locationAttestation with
  | .error e => .error e
  | .ok polygonData =>
    validateObservations G extractLocationFromAttestation
      (G.polygon polygonData.coordinates) 0 attestations


/-!
Helper lemmas shared across the claim theorems.
-/

/-- An initial (strict) fetch succeeds exactly when the HTTP response is ok
and carries a `data` object. -/
lemma fetchInitialAttestations_eq_ok (response : HttpResponse) (d : QueryData) :
    fetchInitialAttestations response = .ok d ↔
      response.ok = true ∧ response.data = some d := by
  obtain ⟨ok, data⟩ := response
  cases ok <;> cases data <;>
    simp [fetchInitialAttestations, executeGraphQLQuery]

/-- Draft 1 `fetchAttestations`, unfolded one step past a successful
initial fetch. -/
lemma Draft1.fetchAttestations_step1 (decode : String → Option DecodedPayload)
    (store : Store) (chainId : Int) (attestationId endpoint : String) (d : QueryData)
    (hend : getEndpoint chainId = some endpoint)
    (hresp : store.initialResponse attestationId = ⟨true, some d⟩) :
    Draft1.fetchAttestations decode store chainId attestationId =
      (match Draft1.fetchMainAttestations decode attestationId d with
       | .error e => (.error e, [.initialQuery endpoint attestationId])
       | .ok (attestations, locationUID) =>
         match fetchLocationData store endpoint locationUID with
         | (.error e, calls) =>
           (.error e, NetworkCall.initialQuery endpoint attestationId :: calls)
         | (.ok locationAttestation, calls) =>
           (.ok { attestations := attestations
                  locationAttestation := locationAttestation },
            NetworkCall.initialQuery endpoint attestationId :: calls)) := by
  unfold Draft1.fetchAttestations
  rw [hend, hresp]
  rfl

/-- Draft 2 `fetchAttestations`, unfolded one step past a successful
initial fetch. -/
lemma Draft2.fetchAttestations_step2 (decode : String → Option DecodedPayload)
    (store : Store) (chainId : Int) (attestationId endpoint : String) (d : QueryData)
    (hend : getEndpoint chainId = some endpoint)
    (hresp : store.initialResponse attestationId = ⟨true, some d⟩) :
    Draft2.fetchAttestations decode store chainId attestationId =
      (match Draft2.fetchMainAttestations decode attestationId d with
       | .error e => (.error e, [.initialQuery endpoint attestationId])
       | .ok (attestations, locationUID) =>
         match fetchLocationData store endpoint locationUID with
         | (.error e, calls) =>
           (.error e, NetworkCall.initialQuery endpoint attestationId :: calls)
         | (.ok locationAttestation, calls) =>
           (.ok { attestations := attestations
                  locationAttestation := locationAttestation },
            NetworkCall.initialQuery endpoint attestationId :: calls)) := by
  unfold Draft2.fetchAttestations
  rw [hend, hresp]
  rfl

/-!
Claim theorems.
-/

/-- C8: for every chainId outside {1, 10, 11155111} and every attestation
identifier, both drafts' `fetchAttestations` fail immediately with the
`Unsupported chainId` error class and issue no network call (empty call
trace). -/
theorem claim_C8_unsupported_chain (decode : String → Option DecodedPayload)
    (store : Store) (chainId : Int) (attestationId : String)
    (h1 : chainId ≠ 1) (h2 : chainId ≠ 10) (h3 : chainId ≠ 11155111) :
    Draft1.fetchAttestations decode store chainId attestationId
      = (.error (.unsupportedChain chainId), [])
    ∧ Draft2.fetchAttestations decode store chainId attestationId
      = (.error (.unsupportedChain chainId), []) := by
  have hend : getEndpoint chainId = none := by
    simp [getEndpoint, h1, h2, h3]
  constructor
  · unfold Draft1.fetchAttestations; rw [hend]
  · unfold Draft2.fetchAttestations; rw [hend]

/-- Witness for C8, at chainId 5. -/
theorem claim_C8_witness :
    Draft1.fetchAttestations (fun _ => none)
        ⟨fun _ => ⟨true, none⟩, fun _ => ⟨true, none⟩⟩ 5 "0xAAA"
      = (.error (.unsupportedChain 5), [])
    ∧ Draft2.fetchAttestations (fun _ => none)
        ⟨fun _ => ⟨true, none⟩, fun _ => ⟨true, none⟩⟩ 5 "0xAAA"
      = (.error (.unsupportedChain 5), []) :=
  claim_C8_unsupported_chain (fun _ => none)
    ⟨fun _ => ⟨true, none⟩, fun _ => ⟨true, none⟩⟩ 5 "0xAAA"
    (by decide) (by decide) (by decide)

/-- A well-formed HTTPS URL for the purpose of C9: its character sequence
begins with the scheme `https://` followed by a nonempty remainder. -/
def isHttpsUrl (url : String) : Bool :=
  url.data.take 8 == "https://".data && url.data.length > 8

/-- C9: `getEndpoint` is a deterministic total function of chainId: for
every chainId in {1, 10, 11155111} it returns some well-formed HTTPS URL,
and for every other chainId it returns none. -/
theorem claim_C9_getEndpoint_total (chainId : Int) :
    ((chainId = 1 ∨ chainId = 10 ∨ chainId = 11155111) →
      ∃ url, getEndpoint chainId = some url ∧ isHttpsUrl url = true)
    ∧ (¬(chainId = 1 ∨ chainId = 10 ∨ chainId = 11155111) →
      getEndpoint chainId = none) := by
  constructor
  · rintro (rfl | rfl | rfl)
    · exact ⟨_, rfl, by decide⟩
    · exact ⟨_, rfl, by decide⟩
    · exact ⟨_, rfl, by decide⟩
  · intro h
    push_neg at h
    obtain ⟨h1, h2, h3⟩ := h
    simp [getEndpoint, h1, h2, h3]

/-- Witness for C9, at chainIds 1 (supported) and 7 (unsupported). -/
theorem claim_C9_witness :
    (∃ url, getEndpoint 1 = some url ∧ isHttpsUrl url = true)
    ∧ getEndpoint 7 = none :=
  ⟨(claim_C9_getEndpoint_total 1).1 (Or.inl rfl),
   (claim_C9_getEndpoint_total 7).2 (by decide)⟩

/-- C10: when the extracted locationUID is null, `fetchLocationData`
(shared verbatim by both drafts) returns null immediately and issues no
second network call. -/
theorem claim_C10_no_location_fetch_when_null (store : Store) (endpoint : String) :
    fetchLocationData store endpoint none = (.ok none, []) := rfl

/-- C6: the boundary lookup is lenient: whenever the location-query
response is non-ok, or its body carries no requested record (absent `data`
or absent `attestation`), `fetchLocationAttestation` returns null without
error and `fetchLocationData` yields `locationAttestation = null` after
issuing exactly the one location query. -/
theorem claim_C6_lenient_boundary_fetch (store : Store) (endpoint uid : String)
    (huid : uid ≠ "")
    (h : (store.locationResponse uid).ok = false
         ∨ (store.locationResponse uid).data.bind (fun q => q.attestation) = none) :
    fetchLocationAttestation (store.locationResponse uid) = .ok none
    ∧ fetchLocationData store endpoint (some uid)
        = (.ok none, [.locationQuery endpoint uid]) := by
  have hla : fetchLocationAttestation (store.locationResponse uid) = .ok none := by
    rcases hrl : store.locationResponse uid with ⟨ok, data⟩
    rw [hrl] at h
    rcases h with h | h
    · simp only at h
      subst h
      simp [fetchLocationAttestation, executeGraphQLQuery]
    · cases ok
      · simp [fetchLocationAttestation, executeGraphQLQuery]
      · cases data with
        | none => simp [fetchLocationAttestation, executeGraphQLQuery]
        | some q =>
          simp only [Option.bind] at h
          simp [fetchLocationAttestation, executeGraphQLQuery, h]
  exact ⟨hla, by simp [fetchLocationData, huid, hla]⟩

/-- Draft 1 `fetchMainAttestations` never filters or augments: on success
the returned list is exactly the normalized referencing list. -/
lemma Draft1.fetchMainAttestations_ok_fst1 (decode : String → Option DecodedPayload)
    (attestationId : String) (initialData : QueryData)
    (p : List AttestationData × Option String)
    (h : Draft1.fetchMainAttestations decode attestationId initialData = .ok p) :
    p.1 = initialData.attestations.map convertRawAttestationToData := by
  unfold Draft1.fetchMainAttestations at h
  by_cases hlen : initialData.attestations.length = 0
  · simp [hlen] at h
  · simp only [hlen, if_false, Except.ok.injEq] at h
    rw [← h]

/-- Draft 2 `fetchMainAttestations` never filters or augments either. -/
lemma Draft2.fetchMainAttestations_ok_fst2 (decode : String → Option DecodedPayload)
    (attestationId : String) (initialData : QueryData)
    (p : List AttestationData × Option String)
    (h : Draft2.fetchMainAttestations decode attestationId initialData = .ok p) :
    p.1 = initialData.attestations.map convertGraphQLResponseToAttestationData := by
  unfold Draft2.fetchMainAttestations at h
  cases he : Draft2.extractLocationUID decode initialData with
  | error e => rw [he] at h; simp at h
  | ok locationUID =>
    rw [he] at h
    by_cases hlen : initialData.attestations.length > 0
    · simp only [hlen, if_true, Except.ok.injEq] at h
      rw [← h]
    · simp [hlen] at h

/-- Draft 1 `fetchMainAttestations` with an empty referencing list always
throws the no-referencing-attestations error. -/
lemma Draft1.fetchMainAttestations_empty1 (decode : String → Option DecodedPayload)
    (attestationId : String) (d : QueryData) (h : d.attestations = []) :
    Draft1.fetchMainAttestations decode attestationId d
      = .error (.noReferencingAttestations attestationId) := by
  unfold Draft1.fetchMainAttestations
  simp [h]

/-- Draft 1 `fetchMainAttestations` with a root attestation present and a
nonempty referencing list: succeeds, with locationUID as extracted
(null when the decode fails). -/
lemma Draft1.fetchMainAttestations_eval1 (decode : String → Option DecodedPayload)
    (attestationId : String) (d : QueryData) (a : RawAttestation)
    (ha : d.attestation = some a) (hne : d.attestations ≠ []) :
    Draft1.fetchMainAttestations decode attestationId d =
      .ok (d.attestations.map convertRawAttestationToData,
           match decode a.decodedDataJson with
           | none => none
           | some decodedData => decodedData.locationUID) := by
  unfold Draft1.fetchMainAttestations
  rw [ha]
  simp [List.length_eq_zero, hne]

/-- Draft 2 `extractLocationUID` throws `rootAttestationNotFound` when the
root attestation is absent. -/
lemma Draft2.extractLocationUID_no_root (decode : String → Option DecodedPayload)
    (d : QueryData) (h : d.attestation = none) :
    Draft2.extractLocationUID decode d = .error .rootAttestationNotFound := by
  unfold Draft2.extractLocationUID
  rw [h]

/-- Draft 2 `extractLocationUID` throws `locationReferenceMissing` when the
root's payload is empty or undecodable. -/
lemma Draft2.extractLocationUID_err (decode : String → Option DecodedPayload)
    (d : QueryData) (a : RawAttestation) (ha : d.attestation = some a)
    (hbad : a.decodedDataJson = "" ∨ decode a.decodedDataJson = none) :
    Draft2.extractLocationUID decode d
      = .error (.locationReferenceMissing a.id) := by
  unfold Draft2.extractLocationUID
  rw [ha]
  rcases hbad with hb | hb
  · simp [hb]
  · by_cases hj : a.decodedDataJson = ""
    · simp [hj]
    · simp [hj, hb]

/-- Draft 2 `extractLocationUID` on a decodable nonempty payload returns
`decodedData.locationUID || null` without error. -/
lemma Draft2.extractLocationUID_ok (decode : String → Option DecodedPayload)
    (d : QueryData) (a : RawAttestation) (p : DecodedPayload)
    (ha : d.attestation = some a) (hj : a.decodedDataJson ≠ "")
    (hp : decode a.decodedDataJson = some p) :
    Draft2.extractLocationUID decode d =
      .ok (match p.locationUID with
           | some u => if u = "" then none else some u
           | none => none) := by
  unfold Draft2.extractLocationUID
  rw [ha]
  simp [hj, hp]

/-- Draft 2 `fetchMainAttestations` propagates an `extractLocationUID`
error unchanged. -/
lemma Draft2.fetchMainAttestations_err (decode : String → Option DecodedPayload)
    (attestationId : String) (d : QueryData) (e : ClientError)
    (he : Draft2.extractLocationUID decode d = .error e) :
    Draft2.fetchMainAttestations decode attestationId d = .error e := by
  unfold Draft2.fetchMainAttestations
  rw [he]

/-- Draft 2 `fetchMainAttestations` with a successful extraction and an
empty referencing list throws the no-referencing-attestations error. -/
lemma Draft2.fetchMainAttestations_empty2 (decode : String → Option DecodedPayload)
    (attestationId : String) (d : QueryData) (locationUID : Option String)
    (he : Draft2.extractLocationUID decode d = .ok locationUID)
    (h : d.attestations = []) :
    Draft2.fetchMainAttestations decode attestationId d
      = .error (.noReferencingAttestations attestationId) := by
  unfold Draft2.fetchMainAttestations
  rw [he]
  simp [h]

/-- Draft 2 `fetchMainAttestations` with a successful extraction and a
nonempty referencing list succeeds. -/
lemma Draft2.fetchMainAttestations_eval2 (decode : String → Option DecodedPayload)
    (attestationId : String) (d : QueryData) (locationUID : Option String)
    (he : Draft2.extractLocationUID decode d = .ok locationUID)
    (hne : d.attestations ≠ []) :
    Draft2.fetchMainAttestations decode attestationId d =
      .ok (d.attestations.map convertGraphQLResponseToAttestationData,
           locationUID) := by
  unfold Draft2.fetchMainAttestations
  rw [he]
  simp [List.length_pos, hne]

/-- Decode-independence of draft 1 `fetchMainAttestations`: only the root
attestation's payload is ever decoded. -/
lemma Draft1.fetchMainAttestations_decode_congr1
    (decode decode' : String → Option DecodedPayload)
    (attestationId : String) (initialData : QueryData)
    (h : ∀ a, initialData.attestation = some a →
         decode a.decodedDataJson = decode' a.decodedDataJson) :
    Draft1.fetchMainAttestations decode attestationId initialData
      = Draft1.fetchMainAttestations decode' attestationId initialData := by
  unfold Draft1.fetchMainAttestations
  cases ha : initialData.attestation with
  | none => rfl
  | some a =>
    dsimp only
    rw [h a ha]

/-- Decode-independence of draft 2 `extractLocationUID`. -/
lemma Draft2.extractLocationUID_decode_congr
    (decode decode' : String → Option DecodedPayload) (initialData : QueryData)
    (h : ∀ a, initialData.attestation = some a →
         decode a.decodedDataJson = decode' a.decodedDataJson) :
    Draft2.extractLocationUID decode initialData
      = Draft2.extractLocationUID decode' initialData := by
  unfold Draft2.extractLocationUID
  cases ha : initialData.attestation with
  | none => rfl
  | some a =>
    dsimp only
    rw [h a ha]

/-- Decode-independence of draft 2 `fetchMainAttestations`. -/
lemma Draft2.fetchMainAttestations_decode_congr2
    (decode decode' : String → Option DecodedPayload)
    (attestationId : String) (initialData : QueryData)
    (h : ∀ a, initialData.attestation = some a →
         decode a.decodedDataJson = decode' a.decodedDataJson) :
    Draft2.fetchMainAttestations decode attestationId initialData
      = Draft2.fetchMainAttestations decode' attestationId initialData := by
  unfold Draft2.fetchMainAttestations
  rw [Draft2.extractLocationUID_decode_congr decode decode' initialData h]

/-- C7: on every successful resolution, the returned attestations are
exactly the store's referencing attestations, normalized, in the store's
order (so the root is never added to them); and no payload other than the
root's is decoded: the whole outcome is unchanged under any two decoders
that agree on the root's payload. -/
theorem claim_C7_observations_exact
    (decode decode' : String → Option DecodedPayload) (store : Store)
    (chainId : Int) (attestationId : String) (d : QueryData)
    (hresp : store.initialResponse attestationId = ⟨true, some d⟩) :
    (∀ r, (Draft1.fetchAttestations decode store chainId attestationId).1 = .ok r →
       r.attestations = d.attestations.map convertRawAttestationToData)
    ∧ (∀ r, (Draft2.fetchAttestations decode store chainId attestationId).1 = .ok r →
       r.attestations = d.attestations.map convertGraphQLResponseToAttestationData)
    ∧ ((∀ a, d.attestation = some a →
          decode a.decodedDataJson = decode' a.decodedDataJson) →
       Draft1.fetchAttestations decode store chainId attestationId
         = Draft1.fetchAttestations decode' store chainId attestationId
       ∧ Draft2.fetchAttestations decode store chainId attestationId
         = Draft2.fetchAttestations decode' store chainId attestationId) := by
  refine ⟨?_, ?_, ?_⟩
  · intro r h
    rcases hend : getEndpoint chainId with _ | endpoint
    · unfold Draft1.fetchAttestations at h
      rw [hend] at h
      simp at h
    · rw [Draft1.fetchAttestations_step1 decode store chainId attestationId
            endpoint d hend hresp] at h
      rcases hm : Draft1.fetchMainAttestations decode attestationId d with e | ⟨atts, locUID⟩
      · rw [hm] at h; simp at h
      · rw [hm] at h
        dsimp only at h
        rcases hl : fetchLocationData store endpoint locUID with ⟨res, calls⟩
        rw [hl] at h
        cases res with
        | error e => simp at h
        | ok la =>
          simp only [Except.ok.injEq] at h
          have hfst := Draft1.fetchMainAttestations_ok_fst1 decode attestationId d
            (atts, locUID) hm
          rw [← h]
          exact hfst
  · intro r h
    rcases hend : getEndpoint chainId with _ | endpoint
    · unfold Draft2.fetchAttestations at h
      rw [hend] at h
      simp at h
    · rw [Draft2.fetchAttestations_step2 decode store chainId attestationId
            endpoint d hend hresp] at h
      rcases hm : Draft2.fetchMainAttestations decode attestationId d with e | ⟨atts, locUID⟩
      · rw [hm] at h; simp at h
      · rw [hm] at h
        dsimp only at h
        rcases hl : fetchLocationData store endpoint locUID with ⟨res, calls⟩
        rw [hl] at h
        cases res with
        | error e => simp at h
        | ok la =>
          simp only [Except.ok.injEq] at h
          have hfst := Draft2.fetchMainAttestations_ok_fst2 decode attestationId d
            (atts, locUID) hm
          rw [← h]
          exact hfst
  · intro hagree
    constructor
    · rcases hend : getEndpoint chainId with _ | endpoint
      · unfold Draft1.fetchAttestations
        rw [hend]
      · rw [Draft1.fetchAttestations_step1 decode store chainId attestationId
              endpoint d hend hresp,
            Draft1.fetchAttestations_step1 decode' store chainId attestationId
              endpoint d hend hresp,
            Draft1.fetchMainAttestations_decode_congr1 decode decode' attestationId d hagree]
    · rcases hend : getEndpoint chainId with _ | endpoint
      · unfold Draft2.fetchAttestations
        rw [hend]
      · rw [Draft2.fetchAttestations_step2 decode store chainId attestationId
              endpoint d hend hresp,
            Draft2.fetchAttestations_step2 decode' store chainId attestationId
              endpoint d hend hresp,
            Draft2.fetchMainAttestations_decode_congr2 decode decode' attestationId d hagree]

/-- Witness for C7: a concrete successful run of draft 1 whose returned
list is the normalized referencing list. -/
theorem claim_C7_witness :
    (⟨[⟨"0xBBB", "s", "0xAAA", "g"⟩], none⟩ : FetchResult).attestations
      = List.map convertRawAttestationToData [⟨"0xBBB", "s", "0xAAA", "g"⟩] :=
  (claim_C7_observations_exact (fun _ => some ⟨none⟩) (fun _ => some ⟨none⟩)
    ⟨fun _ => ⟨true, some ⟨some ⟨"0xAAA", "s", "", "x"⟩,
                          [⟨"0xBBB", "s", "0xAAA", "g"⟩]⟩⟩,
     fun _ => ⟨true, none⟩⟩
    1 "0xAAA"
    ⟨some ⟨"0xAAA", "s", "", "x"⟩, [⟨"0xBBB", "s", "0xAAA", "g"⟩]⟩
    rfl).1 ⟨[⟨"0xBBB", "s", "0xAAA", "g"⟩], none⟩ rfl

/-- C1 is false as stated: here the root attestation exists, its payload
decodes but carries no locationUID, and one referencing attestation
exists — yet both drafts return a result (with a null location
attestation) instead of failing with a LocationReferenceMissing-class
error. -/
theorem claim_C1_counterexample :
    (Draft1.fetchAttestations
        (fun s => if s = "payload" then some ⟨none⟩ else none)
        ⟨fun _ => ⟨true, some ⟨some ⟨"0xROOT", "s", "", "payload"⟩,
                              [⟨"0xBBB", "s", "0xROOT", "g"⟩]⟩⟩,
         fun _ => ⟨true, none⟩⟩ 1 "0xROOT").1
      = .ok ⟨[⟨"0xBBB", "s", "0xROOT", "g"⟩], none⟩
    ∧ (Draft2.fetchAttestations
        (fun s => if s = "payload" then some ⟨none⟩ else none)
        ⟨fun _ => ⟨true, some ⟨some ⟨"0xROOT", "s", "", "payload"⟩,
                              [⟨"0xBBB", "s", "0xROOT", "g"⟩]⟩⟩,
         fun _ => ⟨true, none⟩⟩ 1 "0xROOT").1
      = .ok ⟨[⟨"0xBBB", "s", "0xROOT", "g"⟩], none⟩ :=
  ⟨rfl, rfl⟩

/-- The lenient location query never throws: `executeGraphQLQuery` with
`throwOnError = false` converts every failure into a null result. -/
lemma fetchLocationAttestation_ok (response : HttpResponse) :
    ∃ r, fetchLocationAttestation response = .ok r := by
  obtain ⟨ok, data⟩ := response
  cases ok <;> cases data <;> exact ⟨_, rfl⟩

/-- `fetchLocationData` never returns an error outcome, for any
locationUID and any store. -/
lemma fetchLocationData_ok (store : Store) (endpoint : String)
    (locationUID : Option String) :
    ∃ la calls, fetchLocationData store endpoint locationUID = (.ok la, calls) := by
  match locationUID with
  | none => exact ⟨none, [], rfl⟩
  | some uid =>
    by_cases hu : uid = ""
    · subst hu
      exact ⟨none, [], rfl⟩
    · obtain ⟨r, hr⟩ := fetchLocationAttestation_ok (store.locationResponse uid)
      cases r with
      | none =>
        exact ⟨none, [.locationQuery endpoint uid],
          by simp [fetchLocationData, hu, hr]⟩
      | some la =>
        exact ⟨some (convertRawAttestationToData la), [.locationQuery endpoint uid],
          by simp [fetchLocationData, hu, hr]⟩

/-- Draft 1 `fetchMainAttestations` errors only with the
no-referencing-attestations class. -/
lemma Draft1.fetchMainAttestations_err_shape (decode : String → Option DecodedPayload)
    (attestationId : String) (d : QueryData) (e : ClientError)
    (h : Draft1.fetchMainAttestations decode attestationId d = .error e) :
    e = .noReferencingAttestations attestationId := by
  unfold Draft1.fetchMainAttestations at h
  by_cases hlen : d.attestations.length = 0
  · simp only [hlen, if_true, Except.error.injEq] at h
    exact h.symm
  · simp [hlen] at h

/-- Draft 1 never fails with the LocationReferenceMissing class, on any
input whatsoever: its only error classes are unsupported chain, transport
failure, missing data and no referencing attestations. -/
lemma Draft1.never_locationReferenceMissing (decode : String → Option DecodedPayload)
    (store : Store) (chainId : Int) (attestationId u : String) :
    (Draft1.fetchAttestations decode store chainId attestationId).1
      ≠ .error (.locationReferenceMissing u) := by
  rcases hend : getEndpoint chainId with _ | endpoint
  · unfold Draft1.fetchAttestations
    rw [hend]
    intro heq
    exact ClientError.noConfusion (Except.error.inj heq)
  · rcases hresp : store.initialResponse attestationId with ⟨ok, data⟩
    cases ok with
    | false =>
      unfold Draft1.fetchAttestations
      rw [hend, hresp]
      intro heq
      exact ClientError.noConfusion (Except.error.inj heq)
    | true =>
      cases data with
      | none =>
        unfold Draft1.fetchAttestations
        rw [hend, hresp]
        intro heq
        exact ClientError.noConfusion (Except.error.inj heq)
      | some d =>
        rw [Draft1.fetchAttestations_step1 decode store chainId attestationId
              endpoint d hend hresp]
        rcases hm : Draft1.fetchMainAttestations decode attestationId d with e | ⟨atts, locUID⟩
        · have he := Draft1.fetchMainAttestations_err_shape decode attestationId d e hm
          subst he
          intro heq
          exact ClientError.noConfusion (Except.error.inj heq)
        · dsimp only
          obtain ⟨la, calls, hl⟩ := fetchLocationData_ok store endpoint locUID
          rw [hl]
          intro heq
          exact Except.noConfusion heq

/-- C1 amended: with the root attestation present, draft 2's
`fetchAttestations` fails with the LocationReferenceMissing class exactly
when the root's payload is empty or undecodable; draft 1 never fails with
that class on any input; on an undecodable payload draft 1 succeeds
leniently with a null location attestation (given referencing
attestations exist); and when the payload decodes but carries no
locationUID, both drafts succeed with a null location attestation. -/
theorem claim_C1_amended (decode : String → Option DecodedPayload)
    (store : Store) (chainId : Int) (attestationId endpoint : String)
    (d : QueryData) (a : RawAttestation) (p : DecodedPayload)
    (hend : getEndpoint chainId = some endpoint)
    (hresp : store.initialResponse attestationId = ⟨true, some d⟩)
    (hroot : d.attestation = some a) :
    ((∃ u, (Draft2.fetchAttestations decode store chainId attestationId).1
        = .error (.locationReferenceMissing u))
      ↔ (a.decodedDataJson = "" ∨ decode a.decodedDataJson = none))
    ∧ (∀ (decode' : String → Option DecodedPayload) (store' : Store)
        (chainId' : Int) (attestationId' u : String),
        (Draft1.fetchAttestations decode' store' chainId' attestationId').1
          ≠ .error (.locationReferenceMissing u))
    ∧ (decode a.decodedDataJson = none → d.attestations ≠ [] →
      (Draft1.fetchAttestations decode store chainId attestationId).1
        = .ok ⟨d.attestations.map convertRawAttestationToData, none⟩)
    ∧ (decode a.decodedDataJson = some p → p.locationUID = none →
       a.decodedDataJson ≠ "" → d.attestations ≠ [] →
      (Draft1.fetchAttestations decode store chainId attestationId).1
        = .ok ⟨d.attestations.map convertRawAttestationToData, none⟩
      ∧ (Draft2.fetchAttestations decode store chainId attestationId).1
        = .ok ⟨d.attestations.map convertGraphQLResponseToAttestationData, none⟩) := by
  refine ⟨⟨?_, ?_⟩, ?_, ?_, ?_⟩
  · rintro ⟨u, hu⟩
    by_contra hgood
    push_neg at hgood
    obtain ⟨hj, hdec⟩ := hgood
    obtain ⟨q, hq⟩ := Option.ne_none_iff_exists'.mp hdec
    rw [Draft2.fetchAttestations_step2 decode store chainId attestationId
          endpoint d hend hresp] at hu
    rcases hatt : d.attestations with _ | ⟨b, rest⟩
    · rw [Draft2.fetchMainAttestations_empty2 decode attestationId d _
            (Draft2.extractLocationUID_ok decode d a q hroot hj hq) hatt] at hu
      exact ClientError.noConfusion (Except.error.inj hu)
    · have hne : d.attestations ≠ [] := by rw [hatt]; simp
      rw [Draft2.fetchMainAttestations_eval2 decode attestationId d _
            (Draft2.extractLocationUID_ok decode d a q hroot hj hq) hne] at hu
      dsimp only at hu
      obtain ⟨la, calls, hl⟩ := fetchLocationData_ok store endpoint
        (match q.locationUID with
         | some v => if v = "" then none else some v
         | none => none)
      rw [hl] at hu
      exact Except.noConfusion hu
  · intro hbad
    refine ⟨a.id, ?_⟩
    rw [Draft2.fetchAttestations_step2 decode store chainId attestationId
          endpoint d hend hresp,
        Draft2.fetchMainAttestations_err decode attestationId d _
          (Draft2.extractLocationUID_err decode d a hroot hbad)]
  · exact fun decode' store' chainId' attestationId' u =>
      Draft1.never_locationReferenceMissing decode' store' chainId' attestationId' u
  · intro hdec hne
    rw [Draft1.fetchAttestations_step1 decode store chainId attestationId
          endpoint d hend hresp,
        Draft1.fetchMainAttestations_eval1 decode attestationId d a hroot hne,
        hdec]
    rfl
  · intro hdec hloc hj hne
    constructor
    · rw [Draft1.fetchAttestations_step1 decode store chainId attestationId
            endpoint d hend hresp,
          Draft1.fetchMainAttestations_eval1 decode attestationId d a hroot hne,
          hdec]
      dsimp only
      rw [hloc]
      rfl
    · rw [Draft2.fetchAttestations_step2 decode store chainId attestationId
            endpoint d hend hresp,
          Draft2.fetchMainAttestations_eval2 decode attestationId d _
            (Draft2.extractLocationUID_ok decode d a p hroot hj hdec) hne,
          hloc]
      rfl

/-- Witness for the amended C1: a concrete root attestation with an empty
payload makes draft 2 fail with the LocationReferenceMissing class, while
draft 1 on the same input does not. -/
theorem claim_C1_amended_witness :
    (∃ u, (Draft2.fetchAttestations (fun _ => none)
        ⟨fun _ => ⟨true, some ⟨some ⟨"0xROOT", "s", "", ""⟩,
                              [⟨"0xBBB", "s", "0xROOT", "g"⟩]⟩⟩,
         fun _ => ⟨true, none⟩⟩ 1 "0xROOT").1
      = .error (.locationReferenceMissing u))
    ∧ (Draft1.fetchAttestations (fun _ => none)
        ⟨fun _ => ⟨true, some ⟨some ⟨"0xROOT", "s", "", ""⟩,
                              [⟨"0xBBB", "s", "0xROOT", "g"⟩]⟩⟩,
         fun _ => ⟨true, none⟩⟩ 1 "0xROOT").1
      ≠ .error (.locationReferenceMissing "0xROOT") :=
  ⟨(claim_C1_amended (fun _ => none)
      ⟨fun _ => ⟨true, some ⟨some ⟨"0xROOT", "s", "", ""⟩,
                            [⟨"0xBBB", "s", "0xROOT", "g"⟩]⟩⟩,
       fun _ => ⟨true, none⟩⟩
      1 "0xROOT" "https://mainnet.easscan.org/graphql"
      ⟨some ⟨"0xROOT", "s", "", ""⟩, [⟨"0xBBB", "s", "0xROOT", "g"⟩]⟩
      ⟨"0xROOT", "s", "", ""⟩ ⟨none⟩
      rfl rfl rfl).1.mpr (Or.inl rfl),
   (claim_C1_amended (fun _ => none)
      ⟨fun _ => ⟨true, some ⟨some ⟨"0xROOT", "s", "", ""⟩,
                            [⟨"0xBBB", "s", "0xROOT", "g"⟩]⟩⟩,
       fun _ => ⟨true, none⟩⟩
      1 "0xROOT" "https://mainnet.easscan.org/graphql"
      ⟨some ⟨"0xROOT", "s", "", ""⟩, [⟨"0xBBB", "s", "0xROOT", "g"⟩]⟩
      ⟨"0xROOT", "s", "", ""⟩ ⟨none⟩
      rfl rfl rfl).2.1 (fun _ => none)
      ⟨fun _ => ⟨true, some ⟨some ⟨"0xROOT", "s", "", ""⟩,
                            [⟨"0xBBB", "s", "0xROOT", "g"⟩]⟩⟩,
       fun _ => ⟨true, none⟩⟩ 1 "0xROOT" "0xROOT"⟩

/-- C2 is false as stated: here the referencing set is empty and the root
attestation is absent, and draft 2 fails with the RootAttestationNotFound
class, not the NoReferencingAttestations class. -/
theorem claim_C2_counterexample :
    (Draft2.fetchAttestations (fun _ => none)
        ⟨fun _ => ⟨true, some ⟨none, []⟩⟩, fun _ => ⟨true, none⟩⟩ 1 "0xAAA").1
      = .error .rootAttestationNotFound
    ∧ (Draft2.fetchAttestations (fun _ => none)
        ⟨fun _ => ⟨true, some ⟨none, []⟩⟩, fun _ => ⟨true, none⟩⟩ 1 "0xAAA").1
      ≠ .error (.noReferencingAttestations "0xAAA") :=
  ⟨rfl, fun hc => ClientError.noConfusion (Except.error.inj hc)⟩

/-- C2 amended: with an empty referencing set, both drafts always fail,
but not always with the NoReferencingAttestations class: draft 1 fails
with NoReferencingAttestations regardless of the root; draft 2 fails with
NoReferencingAttestations exactly when the root is present with a
nonempty decodable payload, with RootAttestationNotFound when the root is
absent, and with LocationReferenceMissing when the root is present but
its payload is empty or undecodable. -/
theorem claim_C2_amended (decode : String → Option DecodedPayload)
    (store : Store) (chainId : Int) (attestationId endpoint : String)
    (d : QueryData)
    (hend : getEndpoint chainId = some endpoint)
    (hresp : store.initialResponse attestationId = ⟨true, some d⟩)
    (hempty : d.attestations = []) :
    (Draft1.fetchAttestations decode store chainId attestationId).1
      = .error (.noReferencingAttestations attestationId)
    ∧ (d.attestation = none →
      (Draft2.fetchAttestations decode store chainId attestationId).1
        = .error .rootAttestationNotFound)
    ∧ (∀ a, d.attestation = some a →
       a.decodedDataJson = "" ∨ decode a.decodedDataJson = none →
      (Draft2.fetchAttestations decode store chainId attestationId).1
        = .error (.locationReferenceMissing a.id))
    ∧ (∀ a p, d.attestation = some a → a.decodedDataJson ≠ "" →
       decode a.decodedDataJson = some p →
      (Draft2.fetchAttestations decode store chainId attestationId).1
        = .error (.noReferencingAttestations attestationId))
    ∧ (∃ e, (Draft2.fetchAttestations decode store chainId attestationId).1
        = .error e)
    ∧ ((Draft2.fetchAttestations decode store chainId attestationId).1
        = .error (.noReferencingAttestations attestationId) →
      ∃ a p, d.attestation = some a ∧ a.decodedDataJson ≠ ""
        ∧ decode a.decodedDataJson = some p) := by
  have h1 : (Draft1.fetchAttestations decode store chainId attestationId).1
      = .error (.noReferencingAttestations attestationId) := by
    rw [Draft1.fetchAttestations_step1 decode store chainId attestationId
          endpoint d hend hresp,
        Draft1.fetchMainAttestations_empty1 decode attestationId d hempty]
  have h2 : d.attestation = none →
      (Draft2.fetchAttestations decode store chainId attestationId).1
        = .error .rootAttestationNotFound := by
    intro hroot
    rw [Draft2.fetchAttestations_step2 decode store chainId attestationId
          endpoint d hend hresp,
        Draft2.fetchMainAttestations_err decode attestationId d _
          (Draft2.extractLocationUID_no_root decode d hroot)]
  have h3 : ∀ a, d.attestation = some a →
      a.decodedDataJson = "" ∨ decode a.decodedDataJson = none →
      (Draft2.fetchAttestations decode store chainId attestationId).1
        = .error (.locationReferenceMissing a.id) := by
    intro a hroot hbad
    rw [Draft2.fetchAttestations_step2 decode store chainId attestationId
          endpoint d hend hresp,
        Draft2.fetchMainAttestations_err decode attestationId d _
          (Draft2.extractLocationUID_err decode d a hroot hbad)]
  have h4 : ∀ a p, d.attestation = some a → a.decodedDataJson ≠ "" →
      decode a.decodedDataJson = some p →
      (Draft2.fetchAttestations decode store chainId attestationId).1
        = .error (.noReferencingAttestations attestationId) := by
    intro a p hroot hj hp
    rw [Draft2.fetchAttestations_step2 decode store chainId attestationId
          endpoint d hend hresp,
        Draft2.fetchMainAttestations_empty2 decode attestationId d _
          (Draft2.extractLocationUID_ok decode d a p hroot hj hp) hempty]
  have h5 : ∃ e, (Draft2.fetchAttestations decode store chainId attestationId).1
      = .error e := by
    cases hroot : d.attestation with
    | none => exact ⟨_, h2 hroot⟩
    | some a =>
      by_cases hj : a.decodedDataJson = ""
      · exact ⟨_, h3 a hroot (Or.inl hj)⟩
      · cases hdec : decode a.decodedDataJson with
        | none => exact ⟨_, h3 a hroot (Or.inr hdec)⟩
        | some p => exact ⟨_, h4 a p hroot hj hdec⟩
  have h6 : (Draft2.fetchAttestations decode store chainId attestationId).1
      = .error (.noReferencingAttestations attestationId) →
      ∃ a p, d.attestation = some a ∧ a.decodedDataJson ≠ ""
        ∧ decode a.decodedDataJson = some p := by
    intro hnra
    cases hroot : d.attestation with
    | none =>
      exact ClientError.noConfusion
        (Except.error.inj ((h2 hroot).symm.trans hnra))
    | some a =>
      by_cases hj : a.decodedDataJson = ""
      · exact ClientError.noConfusion
          (Except.error.inj ((h3 a hroot (Or.inl hj)).symm.trans hnra))
      · cases hdec : decode a.decodedDataJson with
        | none =>
          exact ClientError.noConfusion
            (Except.error.inj ((h3 a hroot (Or.inr hdec)).symm.trans hnra))
        | some p => exact ⟨a, p, rfl, hj, hdec⟩
  exact ⟨h1, h2, h3, h4, h5, h6⟩

/-- Witness for the amended C2: an empty referencing set with an absent
root makes draft 1 fail with NoReferencingAttestations and draft 2 with
RootAttestationNotFound. -/
theorem claim_C2_amended_witness :
    (Draft1.fetchAttestations (fun _ => none)
        ⟨fun _ => ⟨true, some ⟨none, []⟩⟩, fun _ => ⟨true, none⟩⟩ 1 "0xAAA").1
      = .error (.noReferencingAttestations "0xAAA")
    ∧ (Draft2.fetchAttestations (fun _ => none)
        ⟨fun _ => ⟨true, some ⟨none, []⟩⟩, fun _ => ⟨true, none⟩⟩ 1 "0xAAA").1
      = .error .rootAttestationNotFound :=
  ⟨(claim_C2_amended (fun _ => none)
      ⟨fun _ => ⟨true, some ⟨none, []⟩⟩, fun _ => ⟨true, none⟩⟩ 1 "0xAAA"
      "https://mainnet.easscan.org/graphql" ⟨none, []⟩ rfl rfl rfl).1,
   (claim_C2_amended (fun _ => none)
      ⟨fun _ => ⟨true, some ⟨none, []⟩⟩, fun _ => ⟨true, none⟩⟩ 1 "0xAAA"
      "https://mainnet.easscan.org/graphql" ⟨none, []⟩ rfl rfl rfl).2.1 rfl⟩

/-- When every element of the list decodes, the observation traversal
succeeds and maps uids positionally. -/
lemma validateObservations_all_ok {Poly Pt : Type} (G : GeometryEngine Poly Pt)
    (extractLocationFromAttestation : AttestationData → Except String LocationData)
    (turfPolygon : Poly) (l : List AttestationData)
    (h : ∀ a ∈ l, ∃ ld, extractLocationFromAttestation a = .ok ld) :
    ∀ index, ∃ rs,
      validateObservations G extractLocationFromAttestation turfPolygon index l = .ok rs
      ∧ rs.map ContainmentResult.attestationId = l.map AttestationData.uid := by
  induction l with
  | nil => exact fun index => ⟨[], rfl, rfl⟩
  | cons a rest ih =>
    intro index
    obtain ⟨ld, hld⟩ := h a (List.mem_cons_self a rest)
    obtain ⟨rs, hrs, hmap⟩ :=
      ih (fun b hb => h b (List.mem_cons_of_mem a hb)) (index + 1)
    refine ⟨⟨a.uid, ld, G.booleanContains turfPolygon (G.point ld.coordinates)⟩ :: rs,
      ?_, ?_⟩
    · unfold validateObservations validateObservation
      rw [hld]
      dsimp only
      rw [hrs]
    · simp [hmap]

/-- The observation traversal aborts with the first decode error. -/
lemma validateObservations_first_err {Poly Pt : Type} (G : GeometryEngine Poly Pt)
    (extractLocationFromAttestation : AttestationData → Except String LocationData)
    (turfPolygon : Poly) (good : List AttestationData) (bad : AttestationData)
    (rest : List AttestationData) (e : String)
    (hgood : ∀ a ∈ good, ∃ ld, extractLocationFromAttestation a = .ok ld)
    (hbad : extractLocationFromAttestation bad = .error e) :
    ∀ index, validateObservations G extractLocationFromAttestation turfPolygon index
      (good ++ bad :: rest) = .error e := by
  induction good with
  | nil =>
    intro index
    rw [List.nil_append]
    unfold validateObservations validateObservation
    rw [hbad]
  | cons a g ih =>
    intro index
    obtain ⟨ld, hld⟩ := hgood a (List.mem_cons_self a g)
    have hrec := ih (fun b hb => hgood b (List.mem_cons_of_mem a hb)) (index + 1)
    rw [List.cons_append]
    unfold validateObservations validateObservation
    rw [hld]
    dsimp only
    rw [hrec]

/-- C4: for every boundary attestation with a decodable payload and every
list of observations each with a decodable payload,
`testPolygonContainment` succeeds with a result list of the same length
as the observation list (so zero observations give an empty result, not
an error), whose i-th entry's attestationId is the i-th observation's
uid. -/
theorem claim_C4_evaluate_length_order {Poly Pt : Type} (G : GeometryEngine Poly Pt)
    (extractLocationFromAttestation : AttestationData → Except String LocationData)
    (attestations : List AttestationData) (locationAttestation : AttestationData)
    (pd : LocationData)
    (hb : extractLocationFromAttestation locationAttestation = .ok pd)
    (ho : ∀ a ∈ attestations, ∃ ld, extractLocationFromAttestation a = .ok ld) :
    ∃ rs, testPolygonContainment G extractLocationFromAttestation
            attestations locationAttestation = .ok rs
      ∧ rs.length = attestations.length
      ∧ rs.map ContainmentResult.attestationId
          = attestations.map AttestationData.uid := by
  obtain ⟨rs, hrs, hmap⟩ := validateObservations_all_ok G
    extractLocationFromAttestation (G.polygon pd.coordinates) attestations ho 0
  refine ⟨rs, ?_, ?_, hmap⟩
  · unfold testPolygonContainment
    rw [hb]
    exact hrs
  · have hlen := congrArg List.length hmap
    simpa using hlen

/-- Witness for C4: one decodable observation against a decodable
boundary yields exactly one result carrying the observation's uid; an
empty observation list yields the empty result. -/
theorem claim_C4_witness :
    (∃ rs, testPolygonContainment
        (⟨fun _ => (), fun _ => (), fun _ _ => true⟩ : GeometryEngine Unit Unit)
        (fun _ => .ok ⟨CoordValue.num 0⟩)
        [⟨"0xBBB", "s", "0xAAA", "g"⟩] ⟨"0xLOC", "s", "", "poly"⟩ = .ok rs
      ∧ rs.length = 1
      ∧ rs.map ContainmentResult.attestationId = ["0xBBB"])
    ∧ (∃ rs, testPolygonContainment
        (⟨fun _ => (), fun _ => (), fun _ _ => true⟩ : GeometryEngine Unit Unit)
        (fun _ => .ok ⟨CoordValue.num 0⟩)
        [] ⟨"0xLOC", "s", "", "poly"⟩ = .ok rs
      ∧ rs.length = 0
      ∧ rs.map ContainmentResult.attestationId = []) :=
  ⟨claim_C4_evaluate_length_order ⟨fun _ => (), fun _ => (), fun _ _ => true⟩
    (fun _ => .ok ⟨CoordValue.num 0⟩) [⟨"0xBBB", "s", "0xAAA", "g"⟩]
    ⟨"0xLOC", "s", "", "poly"⟩ ⟨CoordValue.num 0⟩ rfl
    (fun a _ => ⟨⟨CoordValue.num 0⟩, rfl⟩),
   claim_C4_evaluate_length_order ⟨fun _ => (), fun _ => (), fun _ _ => true⟩
    (fun _ => .ok ⟨CoordValue.num 0⟩) []
    ⟨"0xLOC", "s", "", "poly"⟩ ⟨CoordValue.num 0⟩ rfl
    (fun a ha => absurd ha (List.not_mem_nil a))⟩

/-- C5: when the boundary decodes but some observation's payload fails to
decode, `testPolygonContainment` fails as a whole with the first such
decode error: no partial result list, no silently skipped observation. -/
theorem claim_C5_first_error_wins {Poly Pt : Type} (G : GeometryEngine Poly Pt)
    (extractLocationFromAttestation : AttestationData → Except String LocationData)
    (good : List AttestationData) (bad : AttestationData)
    (rest : List AttestationData) (locationAttestation : AttestationData)
    (pd : LocationData) (e : String)
    (hb : extractLocationFromAttestation locationAttestation = .ok pd)
    (hgood : ∀ a ∈ good, ∃ ld, extractLocationFromAttestation a = .ok ld)
    (hbad : extractLocationFromAttestation bad = .error e) :
    testPolygonContainment G extractLocationFromAttestation
      (good ++ bad :: rest) locationAttestation = .error e := by
  unfold testPolygonContainment
  rw [hb]
  exact validateObservations_first_err G extractLocationFromAttestation
    (G.polygon pd.coordinates) good bad rest e hgood hbad 0

/-- Witness for C5: a good observation followed by an undecodable one and
a trailing one aborts the whole evaluation with the decode error. -/
theorem claim_C5_witness :
    testPolygonContainment
      (⟨fun _ => (), fun _ => (), fun _ _ => true⟩ : GeometryEngine Unit Unit)
      (fun a => if a.data = "bad" then .error "decode failure"
                else .ok ⟨CoordValue.num 0⟩)
      ([⟨"0xAAA", "s", "r", "g"⟩] ++ ⟨"0xBBB", "s", "r", "bad"⟩ ::
        [⟨"0xCCC", "s", "r", "g"⟩])
      ⟨"0xLOC", "s", "", "poly"⟩ = .error "decode failure" :=
  claim_C5_first_error_wins ⟨fun _ => (), fun _ => (), fun _ _ => true⟩
    (fun a => if a.data = "bad" then .error "decode failure"
              else .ok ⟨CoordValue.num 0⟩)
    [⟨"0xAAA", "s", "r", "g"⟩] ⟨"0xBBB", "s", "r", "bad"⟩
    [⟨"0xCCC", "s", "r", "g"⟩] ⟨"0xLOC", "s", "", "poly"⟩
    ⟨CoordValue.num 0⟩ "decode failure" rfl
    (by
      intro a ha
      rw [List.mem_singleton] at ha
      subst ha
      exact ⟨⟨CoordValue.num 0⟩, rfl⟩)
    rfl

/-- Witness for C6: a non-ok HTTP response on the location lookup yields
a null location attestation without error. -/
theorem claim_C6_witness :
    fetchLocationAttestation
        ((⟨fun _ => ⟨true, none⟩, fun _ => ⟨false, none⟩⟩ : Store).locationResponse
          "0xLOC") = .ok none
    ∧ fetchLocationData ⟨fun _ => ⟨true, none⟩, fun _ => ⟨false, none⟩⟩
        "ep" (some "0xLOC") = (.ok none, [.locationQuery "ep" "0xLOC"]) :=
  claim_C6_lenient_boundary_fetch
    ⟨fun _ => ⟨true, none⟩, fun _ => ⟨false, none⟩⟩ "ep" "0xLOC"
    (by decide) (Or.inl rfl)
